import Mathlib

/-!
Shallow embedding of the DS3231 RTC driver (crate `ds3231-rtc`): the error
taxonomy of `src/error.rs` and the square-wave controller of
`src/square_wave.rs`, together with a trace model of the I2C bus so that
read/write counts of each operation are part of the embedded semantics.
The register map and the register-access engine live in files of the
repository that are not among the provided sources (`src/registers.rs`,
`src/ds3231.rs`); those definitions are modelled from the spec and say so
in their doc comments.
-/

namespace Ds3231Spec

/-- Square-wave output frequencies of the rtc-hal `SquareWaveFreq` enum as
used by the driver: the four rates the DS3231 INT/SQW pin supports plus the
32.768 kHz value the pin cannot produce. -/
inductive SquareWaveFreq where
  | Hz1
  | Hz1024
  | Hz4096
  | Hz8192
  | Hz32768
deriving DecidableEq

/-- Date/time validation error of the rtc-hal calendar collaborator. The
driver treats it as opaque payload (it never inspects the variant), so one
representative variant, the one exercised by the repository tests, suffices. -/
inductive DateTimeError where
  | InvalidDay
deriving DecidableEq

/-- DS3231 driver errors, from `Error<I2cError>` in `src/error.rs`. -/
inductive Error (E : Type) where
  | I2c : E → Error E
  | InvalidAddress : Error E
  | UnsupportedSqwFrequency : Error E
  | DateTime : DateTimeError → Error E
  | InvalidBaseCentury : Error E
deriving DecidableEq

/-- Error kinds of the rtc-hal `ErrorKind` taxonomy that the kind projection
in `src/error.rs` maps onto (the four variants the source references). -/
inductive ErrorKind where
  | Bus
  | InvalidAddress
  | UnsupportedSqwFrequency
  | InvalidDateTime
deriving DecidableEq

/-- Stable kind projection, from `impl RtcError for Error` in `src/error.rs`. -/
def Error.kind {E : Type} : Error E → ErrorKind
  | .I2c _ => .Bus
  | .InvalidAddress => .InvalidAddress
  | .DateTime _ => .InvalidDateTime
  | .UnsupportedSqwFrequency => .UnsupportedSqwFrequency
  | .InvalidBaseCentury => .InvalidDateTime

/-- Wrapping conversion of a transport error into a driver error, from
`impl From<I2cError> for Error` in `src/error.rs`. -/
def Error.fromI2c {E : Type} (value : E) : Error E := Error.I2c value

/-- Modelled from the spec: the register enumeration of the missing
`src/registers.rs`, taken from the spec's register map (Seconds = 0x00
through TempLSB = 0x12). -/
inductive Register where
  | Seconds
  | Minutes
  | Hours
  | Day
  | Date
  | MonthCentury
  | Year
  | Alarm1
  | Alarm2
  | Control
  | Status
  | AgingOffset
  | TempMSB
  | TempLSB
deriving DecidableEq

/-- Modelled from the spec: register addresses of the missing
`src/registers.rs`, from the spec's register map. -/
def Register.addr : Register → Nat
  | .Seconds => 0x00
  | .Minutes => 0x01
  | .Hours => 0x02
  | .Day => 0x03
  | .Date => 0x04
  | .MonthCentury => 0x05
  | .Year => 0x06
  | .Alarm1 => 0x07
  | .Alarm2 => 0x0B
  | .Control => 0x0E
  | .Status => 0x0F
  | .AgingOffset => 0x10
  | .TempMSB => 0x11
  | .TempLSB => 0x12

/-- Modelled from the spec: the `INTCN_BIT` mask of the missing
`src/registers.rs`; the spec fixes the control-register layout as
bit 2 = INTCN. -/
def INTCN_BIT : Nat := 0b00000100

/-- Modelled from the spec: the `RS_MASK` mask of the missing
`src/registers.rs`; the spec fixes rate-select as bits 3 and 4 of the
control register. -/
def RS_MASK : Nat := 0b00011000

/-- Bitwise complement of a byte-sized mask: the meaning of Rust `!mask` at
type `u8`, for masks below 256. -/
def not8 (m : Nat) : Nat := m ^^^ 0b11111111

/-- Convert a `SquareWaveFreq` into the corresponding DS3231 RS bits, from
`freq_to_bits` in `src/square_wave.rs`. -/
def freq_to_bits (E : Type) : SquareWaveFreq → Except (Error E) Nat
  | .Hz1 => .ok 0b00000000
  | .Hz1024 => .ok 0b00001000
  | .Hz4096 => .ok 0b00010000
  | .Hz8192 => .ok 0b00011000
  | _ => .error Error.UnsupportedSqwFrequency

/-- Model of the I2C bus transport as the driver sees it during one
operation: what each register read returns and what each attempted register
write returns. -/
structure BusSpec (E : Type) where
  readReg : Register → Except E Nat
  writeReg : Register → Nat → Except E Unit

deriving instance DecidableEq for Except

/-- Result of one driver operation together with the bus transactions it
issued, in order: the registers read and the (register, value) pairs whose
write was attempted. -/
structure OpOutcome (E : Type) where
  result : Except (Error E) Unit
  readsIssued : List Register
  writesIssued : List (Register × Nat)
deriving DecidableEq

/-- Modelled from the spec: `read_register` of the missing `src/ds3231.rs`
Register Access Engine - one combined write-then-read bus transaction
returning the register byte, failing with the transport error. -/
def read_register {E : Type} (bus : BusSpec E) (reg : Register) : Except E Nat :=
  bus.readReg reg

/-- Modelled from the spec: `write_register` of the missing `src/ds3231.rs`
Register Access Engine - one bus write of [addr, value]. -/
def write_register {E : Type} (bus : BusSpec E) (reg : Register) (v : Nat) :
    Except E Unit :=
  bus.writeReg reg v

/-- Modelled from the spec: `set_register_bits` of the missing
`src/ds3231.rs` - read-modify-write that ORs a mask into a register, with
no-op elision: exactly one read, then a write only if the computed new
value differs from the value read. -/
def set_register_bits {E : Type} (bus : BusSpec E) (reg : Register) (mask : Nat) :
    OpOutcome E :=
  match read_register bus reg with
  | .error e => ⟨.error (Error.I2c e), [reg], []⟩
  | .ok current =>
    let new_value := current ||| mask
    if new_value ≠ current then
      match write_register bus reg new_value with
      | .error e => ⟨.error (Error.I2c e), [reg], [(reg, new_value)]⟩
      | .ok _ => ⟨.ok (), [reg], [(reg, new_value)]⟩
    else ⟨.ok (), [reg], []⟩

/-- Modelled from the spec: `clear_register_bits` of the missing
`src/ds3231.rs` - read-modify-write that clears a mask from a register,
with the same no-op elision as `set_register_bits`. -/
def clear_register_bits {E : Type} (bus : BusSpec E) (reg : Register) (mask : Nat) :
    OpOutcome E :=
  match read_register bus reg with
  | .error e => ⟨.error (Error.I2c e), [reg], []⟩
  | .ok current =>
    let new_value := current &&& not8 mask
    if new_value ≠ current then
      match write_register bus reg new_value with
      | .error e => ⟨.error (Error.I2c e), [reg], [(reg, new_value)]⟩
      | .ok _ => ⟨.ok (), [reg], [(reg, new_value)]⟩
    else ⟨.ok (), [reg], []⟩

/-- Enable the square wave output, from `enable_square_wave` in
`src/square_wave.rs`: clear the INTCN bit of the control register. -/
def enable_square_wave {E : Type} (bus : BusSpec E) : OpOutcome E :=
  clear_register_bits bus Register.Control INTCN_BIT

/-- Disable the square wave output, from `disable_square_wave` in
`src/square_wave.rs`: set the INTCN bit of the control register. -/
def disable_square_wave {E : Type} (bus : BusSpec E) : OpOutcome E :=
  set_register_bits bus Register.Control INTCN_BIT

/-- Set the square wave frequency, from `set_square_wave_frequency` in
`src/square_wave.rs`: convert the frequency to RS bits (failing before any
bus access if unsupported), read the control register, clear the RS field
and OR in the new bits, and write back only if the value changed. -/
def set_square_wave_frequency {E : Type} (bus : BusSpec E) (freq : SquareWaveFreq) :
    OpOutcome E :=
  match freq_to_bits E freq with
  | .error e => ⟨.error e, [], []⟩
  | .ok rs_bits =>
    match read_register bus Register.Control with
    | .error e => ⟨.error (Error.I2c e), [Register.Control], []⟩
    | .ok current =>
      let new_value := (current &&& not8 RS_MASK) ||| rs_bits
      if new_value ≠ current then
        match write_register bus Register.Control new_value with
        | .error e =>
          ⟨.error (Error.I2c e), [Register.Control], [(Register.Control, new_value)]⟩
        | .ok _ => ⟨.ok (), [Register.Control], [(Register.Control, new_value)]⟩
      else ⟨.ok (), [Register.Control], []⟩

/-- Start the square wave output, from `start_square_wave` in
`src/square_wave.rs`: like `set_square_wave_frequency` but the computed
value additionally has the INTCN bit cleared, all in one read and at most
one write. -/
def start_square_wave {E : Type} (bus : BusSpec E) (freq : SquareWaveFreq) :
    OpOutcome E :=
  match freq_to_bits E freq with
  | .error e => ⟨.error e, [], []⟩
  | .ok rs_bits =>
    match read_register bus Register.Control with
    | .error e => ⟨.error (Error.I2c e), [Register.Control], []⟩
    | .ok current =>
      let new_value := (((current &&& not8 RS_MASK) ||| rs_bits) &&& not8 INTCN_BIT)
      if new_value ≠ current then
        match write_register bus Register.Control new_value with
        | .error e =>
          ⟨.error (Error.I2c e), [Register.Control], [(Register.Control, new_value)]⟩
        | .ok _ => ⟨.ok (), [Register.Control], [(Register.Control, new_value)]⟩
      else ⟨.ok (), [Register.Control], []⟩

/-- The control byte `set_square_wave_frequency` computes before its
write-if-changed test (pure part of the transform). -/
def setFreqValue (rs_bits current : Nat) : Nat :=
  (current &&& not8 RS_MASK) ||| rs_bits

/-- The control byte `start_square_wave` computes before its
write-if-changed test (pure part of the transform). -/
def startValue (rs_bits current : Nat) : Nat :=
  ((current &&& not8 RS_MASK) ||| rs_bits) &&& not8 INTCN_BIT

/-- The control byte `enable_square_wave` computes: INTCN cleared. -/
def enableValue (current : Nat) : Nat := current &&& not8 INTCN_BIT

/-- The control byte `disable_square_wave` computes: INTCN set. -/
def disableValue (current : Nat) : Nat := current ||| INTCN_BIT

/-- The value the spec's words ascribe to `start_square_wave`: the byte read
with the rate-select bits (bits 3 and 4) replaced by the frequency's
pattern, INTCN (bit 2) cleared, and every other bit preserved verbatim.
Defined bit by bit from that sentence, to be compared with the code's
computation. -/
def startSpecifiedValue (pattern current : Nat) : Nat :=
  (List.range 8).foldl
    (fun acc i =>
      let b :=
        if i = 2 then false
        else if i = 3 ∨ i = 4 then pattern.testBit i
        else current.testBit i
      acc + (if b then 2 ^ i else 0)) 0

/-- Bus stub that answers every read with the byte `c` and accepts every
write; used to instantiate theorems at concrete inputs. -/
def okByteBus (E : Type) (c : Nat) : BusSpec E :=
  ⟨fun _ => .ok c, fun _ _ => .ok ()⟩

/-- Bus stub whose every transaction fails with the transport error `e`. -/
def failBus (E : Type) (e : E) : BusSpec E :=
  ⟨fun _ => .error e, fun _ _ => .error e⟩

/-- Bus stub that answers every read with `c` and fails every write with the
transport error `e`. -/
def writeFailBus (E : Type) (c : Nat) (e : E) : BusSpec E :=
  ⟨fun _ => .ok c, fun _ _ => .error e⟩

/-- Outcome of the write-back step of a read-modify-write operation: the
write is attempted and its transport error, if any, is wrapped. -/
def writeOutcome {E : Type} (bus : BusSpec E) (reg : Register) (v : Nat) :
    OpOutcome E :=
  match bus.writeReg reg v with
  | .error e => ⟨.error (Error.I2c e), [reg], [(reg, v)]⟩
  | .ok _ => ⟨.ok (), [reg], [(reg, v)]⟩

lemma writeOutcome_reads {E : Type} (bus : BusSpec E) (reg : Register) (v : Nat) :
    (writeOutcome bus reg v).readsIssued = [reg] := by
  unfold writeOutcome; cases bus.writeReg reg v <;> rfl

lemma writeOutcome_writes {E : Type} (bus : BusSpec E) (reg : Register) (v : Nat) :
    (writeOutcome bus reg v).writesIssued = [(reg, v)] := by
  unfold writeOutcome; cases bus.writeReg reg v <;> rfl

lemma writeOutcome_of_writeErr {E : Type} {bus : BusSpec E} {reg : Register}
    {v : Nat} {e : E} (hw : bus.writeReg reg v = .error e) :
    writeOutcome bus reg v = ⟨.error (Error.I2c e), [reg], [(reg, v)]⟩ := by
  unfold writeOutcome; rw [hw]

lemma writeOutcome_of_writeOk {E : Type} {bus : BusSpec E} {reg : Register}
    {v : Nat} (hw : bus.writeReg reg v = .ok ()) :
    writeOutcome bus reg v = ⟨.ok (), [reg], [(reg, v)]⟩ := by
  unfold writeOutcome; rw [hw]

lemma set_register_bits_run {E : Type} {bus : BusSpec E} {reg : Register}
    {mask c : Nat} (hr : bus.readReg reg = .ok c) :
    set_register_bits bus reg mask =
      if c ||| mask = c then ⟨.ok (), [reg], []⟩
      else writeOutcome bus reg (c ||| mask) := by
  unfold set_register_bits read_register write_register writeOutcome
  rw [hr]
  by_cases h : c ||| mask = c <;> simp [h]

lemma clear_register_bits_run {E : Type} {bus : BusSpec E} {reg : Register}
    {mask c : Nat} (hr : bus.readReg reg = .ok c) :
    clear_register_bits bus reg mask =
      if c &&& not8 mask = c then ⟨.ok (), [reg], []⟩
      else writeOutcome bus reg (c &&& not8 mask) := by
  unfold clear_register_bits read_register write_register writeOutcome
  rw [hr]
  by_cases h : c &&& not8 mask = c <;> simp [h]

lemma set_register_bits_readErr {E : Type} {bus : BusSpec E} {reg : Register}
    {mask : Nat} {e : E} (hr : bus.readReg reg = .error e) :
    set_register_bits bus reg mask = ⟨.error (Error.I2c e), [reg], []⟩ := by
  unfold set_register_bits read_register
  rw [hr]

lemma clear_register_bits_readErr {E : Type} {bus : BusSpec E} {reg : Register}
    {mask : Nat} {e : E} (hr : bus.readReg reg = .error e) :
    clear_register_bits bus reg mask = ⟨.error (Error.I2c e), [reg], []⟩ := by
  unfold clear_register_bits read_register
  rw [hr]

lemma set_square_wave_frequency_run {E : Type} {bus : BusSpec E}
    {f : SquareWaveFreq} {bits c : Nat} (hf : freq_to_bits E f = .ok bits)
    (hr : bus.readReg Register.Control = .ok c) :
    set_square_wave_frequency bus f =
      if setFreqValue bits c = c then ⟨.ok (), [Register.Control], []⟩
      else writeOutcome bus Register.Control (setFreqValue bits c) := by
  unfold set_square_wave_frequency read_register write_register writeOutcome setFreqValue
  rw [hf, hr]
  by_cases h : (c &&& not8 RS_MASK) ||| bits = c <;> simp [h]

lemma start_square_wave_run {E : Type} {bus : BusSpec E}
    {f : SquareWaveFreq} {bits c : Nat} (hf : freq_to_bits E f = .ok bits)
    (hr : bus.readReg Register.Control = .ok c) :
    start_square_wave bus f =
      if startValue bits c = c then ⟨.ok (), [Register.Control], []⟩
      else writeOutcome bus Register.Control (startValue bits c) := by
  unfold start_square_wave read_register write_register writeOutcome startValue
  rw [hf, hr]
  by_cases h : ((c &&& not8 RS_MASK) ||| bits) &&& not8 INTCN_BIT = c <;> simp [h]

lemma set_square_wave_frequency_readErr {E : Type} {bus : BusSpec E}
    {f : SquareWaveFreq} {bits : Nat} {e : E} (hf : freq_to_bits E f = .ok bits)
    (hr : bus.readReg Register.Control = .error e) :
    set_square_wave_frequency bus f =
      ⟨.error (Error.I2c e), [Register.Control], []⟩ := by
  unfold set_square_wave_frequency read_register
  rw [hf, hr]

lemma start_square_wave_readErr {E : Type} {bus : BusSpec E}
    {f : SquareWaveFreq} {bits : Nat} {e : E} (hf : freq_to_bits E f = .ok bits)
    (hr : bus.readReg Register.Control = .error e) :
    start_square_wave bus f =
      ⟨.error (Error.I2c e), [Register.Control], []⟩ := by
  unfold start_square_wave read_register
  rw [hf, hr]

lemma byte_testBit_high {c : Nat} (hc : c < 256) {i : Nat} (hi : 8 ≤ i) :
    c.testBit i = false := by
  apply Nat.testBit_lt_two_pow
  calc c < 256 := hc
    _ = 2 ^ 8 := by norm_num
    _ ≤ 2 ^ i := Nat.pow_le_pow_right (by norm_num) hi

lemma agree_outside_of_fin {mask v c : Nat} (hv : v < 256) (hc : c < 256)
    (h : ∀ i : Fin 8, mask.testBit i.val = false →
      v.testBit i.val = c.testBit i.val) :
    ∀ i : Nat, mask.testBit i = false → v.testBit i = c.testBit i := by
  intro i hi
  by_cases h8 : i < 8
  · exact h ⟨i, h8⟩ hi
  · rw [byte_testBit_high hv (Nat.le_of_not_lt h8),
      byte_testBit_high hc (Nat.le_of_not_lt h8)]

lemma testBit_false_of_fin {v : Nat} (hv : v < 256)
    (h : ∀ i : Fin 8, RS_MASK.testBit i.val = false → v.testBit i.val = false) :
    ∀ i : Nat, RS_MASK.testBit i = false → v.testBit i = false := by
  intro i hi
  by_cases h8 : i < 8
  · exact h ⟨i, h8⟩ hi
  · exact byte_testBit_high hv (Nat.le_of_not_lt h8)

lemma freq_to_bits_pattern {E : Type} {f : SquareWaveFreq} {bits : Nat}
    (hf : freq_to_bits E f = .ok bits) : ∃ bb : Fin 4, bits = 8 * bb.val := by
  cases f with
  | Hz1 => injection hf with h; exact ⟨0, h.symm.trans (by decide)⟩
  | Hz1024 => injection hf with h; exact ⟨1, h.symm.trans (by decide)⟩
  | Hz4096 => injection hf with h; exact ⟨2, h.symm.trans (by decide)⟩
  | Hz8192 => injection hf with h; exact ⟨3, h.symm.trans (by decide)⟩
  | Hz32768 => exact absurd hf (by simp [freq_to_bits])

set_option maxRecDepth 8192 in
lemma setFreqValue_lt_fin : ∀ bb : Fin 4, ∀ c : Fin 256,
    setFreqValue (8 * bb.val) c.val < 256 := by decide

set_option maxRecDepth 8192 in
lemma startValue_lt_fin : ∀ bb : Fin 4, ∀ c : Fin 256,
    startValue (8 * bb.val) c.val < 256 := by decide

set_option maxRecDepth 8192 in
lemma setFreqValue_frame_fin : ∀ bb : Fin 4, ∀ c : Fin 256, ∀ i : Fin 8,
    RS_MASK.testBit i.val = false →
    (setFreqValue (8 * bb.val) c.val).testBit i.val = c.val.testBit i.val := by
  decide

set_option maxRecDepth 8192 in
lemma startValue_spec_fin : ∀ bb : Fin 4, ∀ c : Fin 256,
    startValue (8 * bb.val) c.val = startSpecifiedValue (8 * bb.val) c.val := by
  decide

set_option maxRecDepth 8192 in
lemma enable_disable_frame_fin : ∀ c : Fin 256, ∀ i : Fin 8, i.val ≠ 2 →
    (enableValue c.val).testBit i.val = c.val.testBit i.val
    ∧ (disableValue c.val).testBit i.val = c.val.testBit i.val := by decide

set_option maxRecDepth 8192 in
lemma enable_disable_value_fin : ∀ c : Fin 256,
    enableValue c.val < 256 ∧ disableValue c.val < 256
    ∧ (enableValue c.val).testBit 2 = false
    ∧ (disableValue c.val).testBit 2 = true
    ∧ enableValue c.val &&& RS_MASK = c.val &&& RS_MASK
    ∧ disableValue c.val &&& RS_MASK = c.val &&& RS_MASK
    ∧ enableValue (disableValue c.val) &&& RS_MASK = c.val &&& RS_MASK := by
  decide

set_option maxRecDepth 8192 in
lemma sqw_idem_fin : ∀ bb : Fin 4, ∀ c : Fin 256,
    setFreqValue (8 * bb.val) (setFreqValue (8 * bb.val) c.val)
        = setFreqValue (8 * bb.val) c.val
    ∧ startValue (8 * bb.val) (startValue (8 * bb.val) c.val)
        = startValue (8 * bb.val) c.val := by decide

set_option maxRecDepth 8192 in
lemma rate_bits_in_mask_fin : ∀ bb : Fin 4,
    (8 * bb.val) &&& RS_MASK = 8 * bb.val
    ∧ (∀ i : Fin 8, RS_MASK.testBit i.val = false →
        (8 * bb.val).testBit i.val = false) := by decide

/-- C1: start_square_wave(f) is logically set_square_wave_frequency(f)
followed by enable_square_wave(): for every supported frequency and every
control byte read it issues exactly one read; the value it computes equals
the byte read with the rate-select bits replaced by the frequency's pattern
and INTCN cleared and every other bit preserved verbatim (the spec-side
splice `startSpecifiedValue`), and equals the enable transform applied
after the set-frequency transform; and it is written back only when it
differs from the byte read, so at most one write is issued. -/
theorem C1_start_square_wave_refines {E : Type} (bus : BusSpec E)
    (f : SquareWaveFreq) (bits c : Nat) (hf : freq_to_bits E f = .ok bits)
    (hc : c < 256) (hr : bus.readReg Register.Control = .ok c) :
    (start_square_wave bus f).readsIssued = [Register.Control]
    ∧ (start_square_wave bus f).writesIssued =
        (if startValue bits c = c then []
          else [(Register.Control, startValue bits c)])
    ∧ startValue bits c = startSpecifiedValue bits c
    ∧ startValue bits c = enableValue (setFreqValue bits c) := by
  obtain ⟨bb, rfl⟩ := freq_to_bits_pattern hf
  refine ⟨?_, ?_, startValue_spec_fin bb ⟨c, hc⟩, rfl⟩
  · rw [start_square_wave_run hf hr]
    by_cases h : startValue (8 * bb.val) c = c
    · simp [h]
    · simp [h, writeOutcome_reads]
  · rw [start_square_wave_run hf hr]
    by_cases h : startValue (8 * bb.val) c = c
    · simp [h]
    · simp [h, writeOutcome_writes]

/-- Witness for C1 at the spec's worked example: control byte 0b00011100
with frequency 1 Hz computes and writes 0b00000000. -/
theorem C1_start_square_wave_refines_witness :
    (freq_to_bits Unit SquareWaveFreq.Hz1 = .ok 0 ∧ (28 : Nat) < 256
      ∧ (okByteBus Unit 28).readReg Register.Control = .ok 28)
    ∧ ((start_square_wave (okByteBus Unit 28) SquareWaveFreq.Hz1).readsIssued
          = [Register.Control]
      ∧ (start_square_wave (okByteBus Unit 28) SquareWaveFreq.Hz1).writesIssued =
          (if startValue 0 28 = 28 then []
            else [(Register.Control, startValue 0 28)])
      ∧ startValue 0 28 = startSpecifiedValue 0 28
      ∧ startValue 0 28 = enableValue (setFreqValue 0 28)) :=
  ⟨⟨rfl, by decide, rfl⟩,
    C1_start_square_wave_refines (okByteBus Unit 28) SquareWaveFreq.Hz1 0 28
      rfl (by decide) rfl⟩

/-- C2: the frequency-to-rate-bits table is exactly 1 Hz to 00, 1.024 kHz
to 01, 4.096 kHz to 10, 8.192 kHz to 11, each pattern placed in the 2-bit
rate-select field at bits 3-4 of the control register (so every returned
pattern is contained in RS_MASK), and every other SquareWaveFreq value, in
particular 32.768 kHz, maps to the UnsupportedSqwFrequency error. -/
theorem C2_freq_to_bits_table (E : Type) :
    (freq_to_bits E SquareWaveFreq.Hz1 = .ok (0 <<< 3)
      ∧ freq_to_bits E SquareWaveFreq.Hz1024 = .ok (1 <<< 3)
      ∧ freq_to_bits E SquareWaveFreq.Hz4096 = .ok (2 <<< 3)
      ∧ freq_to_bits E SquareWaveFreq.Hz8192 = .ok (3 <<< 3))
    ∧ (∀ f bits, freq_to_bits E f = .ok bits → bits &&& RS_MASK = bits)
    ∧ (∀ f : SquareWaveFreq,
        f ∉ [SquareWaveFreq.Hz1, SquareWaveFreq.Hz1024, SquareWaveFreq.Hz4096,
          SquareWaveFreq.Hz8192] →
        freq_to_bits E f = .error Error.UnsupportedSqwFrequency) := by
  refine ⟨⟨rfl, rfl, rfl, rfl⟩, ?_, ?_⟩
  · intro f bits hf
    obtain ⟨bb, rfl⟩ := freq_to_bits_pattern hf
    exact (rate_bits_in_mask_fin bb).1
  · intro f hf
    cases f
    case Hz32768 => rfl
    all_goals simp at hf

/-- C3 counterexample: the kind projection does not give the base-century
failure its own kind - `Error.InvalidBaseCentury` is classified under the
same `InvalidDateTime` kind as a date/time validation failure, so the five
failure modes are not reported under five distinct kinds. -/
theorem C3_kind_counterexample :
    (Error.InvalidBaseCentury : Error Unit).kind = ErrorKind.InvalidDateTime
    ∧ (Error.InvalidBaseCentury : Error Unit).kind
        = (Error.DateTime DateTimeError.InvalidDay : Error Unit).kind :=
  ⟨rfl, rfl⟩

/-- C3 amended: the kind projection maps the five failure modes onto the
closed set of four kinds Bus, InvalidAddress, UnsupportedSqwFrequency and
InvalidDateTime; a wrapped transport error is Bus, an out-of-range address
InvalidAddress, an unsupported frequency UnsupportedSqwFrequency, and both
a date/time validation failure and a base century outside the supported
set are reported under InvalidDateTime (the base-century failure does not
get its own kind); every error value's kind is one of those four. -/
theorem C3_kind_projection (E : Type) (e : E) (d : DateTimeError) :
    (Error.I2c e).kind = ErrorKind.Bus
    ∧ (Error.InvalidAddress : Error E).kind = ErrorKind.InvalidAddress
    ∧ (Error.UnsupportedSqwFrequency : Error E).kind
        = ErrorKind.UnsupportedSqwFrequency
    ∧ (Error.DateTime d : Error E).kind = ErrorKind.InvalidDateTime
    ∧ (Error.InvalidBaseCentury : Error E).kind = ErrorKind.InvalidDateTime
    ∧ (∀ err : Error E, err.kind = ErrorKind.Bus
        ∨ err.kind = ErrorKind.InvalidAddress
        ∨ err.kind = ErrorKind.UnsupportedSqwFrequency
        ∨ err.kind = ErrorKind.InvalidDateTime) := by
  refine ⟨rfl, rfl, rfl, rfl, rfl, ?_⟩
  intro err
  cases err <;> simp [Error.kind]

lemma rmw_shape {E : Type} {o : OpOutcome E} {bus : BusSpec E} {v c : Nat}
    (hrun : o = if v = c then ⟨.ok (), [Register.Control], []⟩
      else writeOutcome bus Register.Control v) :
    o.readsIssued = [Register.Control]
    ∧ o.writesIssued = (if v = c then [] else [(Register.Control, v)])
    ∧ (v = c → o = ⟨.ok (), [Register.Control], []⟩) := by
  subst hrun
  by_cases h : v = c
  · simp [h]
  · simp [h, writeOutcome_reads, writeOutcome_writes]

/-- C4: for every supported frequency and every control byte read,
set_square_wave_frequency changes only the rate-select bits: the value it
computes (the only value it can write, and it writes at most that once)
agrees with the byte read on every bit outside RS_MASK, and in particular
never alters INTCN (bit 2). -/
theorem C4_set_frequency_frame {E : Type} (bus : BusSpec E)
    (f : SquareWaveFreq) (bits c : Nat) (hf : freq_to_bits E f = .ok bits)
    (hc : c < 256) (hr : bus.readReg Register.Control = .ok c) :
    (∀ i : Nat, RS_MASK.testBit i = false →
      (setFreqValue bits c).testBit i = c.testBit i)
    ∧ (setFreqValue bits c).testBit 2 = c.testBit 2
    ∧ (set_square_wave_frequency bus f).writesIssued =
        (if setFreqValue bits c = c then []
          else [(Register.Control, setFreqValue bits c)]) := by
  obtain ⟨bb, rfl⟩ := freq_to_bits_pattern hf
  have hframe := agree_outside_of_fin (setFreqValue_lt_fin bb ⟨c, hc⟩) hc
    (setFreqValue_frame_fin bb ⟨c, hc⟩)
  exact ⟨hframe, hframe 2 (by decide),
    (rmw_shape (set_square_wave_frequency_run hf hr)).2.1⟩

/-- Witness for C4 at the repository's preserves-other-bits test: control
byte 0b11000100 with frequency 1.024 kHz writes 0b11001100. -/
theorem C4_set_frequency_frame_witness :
    (freq_to_bits Unit SquareWaveFreq.Hz1024 = .ok 8 ∧ (196 : Nat) < 256
      ∧ (okByteBus Unit 196).readReg Register.Control = .ok 196)
    ∧ ((∀ i : Nat, RS_MASK.testBit i = false →
          (setFreqValue 8 196).testBit i = (196 : Nat).testBit i)
      ∧ (setFreqValue 8 196).testBit 2 = (196 : Nat).testBit 2
      ∧ (set_square_wave_frequency (okByteBus Unit 196)
            SquareWaveFreq.Hz1024).writesIssued =
          (if setFreqValue 8 196 = 196 then []
            else [(Register.Control, setFreqValue 8 196)])) :=
  ⟨⟨rfl, by decide, rfl⟩,
    C4_set_frequency_frame (okByteBus Unit 196) SquareWaveFreq.Hz1024 8 196
      rfl (by decide) rfl⟩

/-- C5: no-op elision - each of the four square-wave read-modify-write
operations (enable, disable, set frequency with a supported frequency,
start with a supported frequency) performs exactly one register read, then
a write only if the computed new value differs from the byte read; when
the computed value equals the byte read the operation succeeds with
exactly one read and zero writes. -/
theorem C5_noop_elision {E : Type} (bus : BusSpec E) (f : SquareWaveFreq)
    (bits c : Nat) (hf : freq_to_bits E f = .ok bits)
    (hr : bus.readReg Register.Control = .ok c) :
    ((enable_square_wave bus).readsIssued = [Register.Control]
      ∧ (enable_square_wave bus).writesIssued =
          (if enableValue c = c then [] else [(Register.Control, enableValue c)])
      ∧ (enableValue c = c →
          enable_square_wave bus = ⟨.ok (), [Register.Control], []⟩))
    ∧ ((disable_square_wave bus).readsIssued = [Register.Control]
      ∧ (disable_square_wave bus).writesIssued =
          (if disableValue c = c then []
            else [(Register.Control, disableValue c)])
      ∧ (disableValue c = c →
          disable_square_wave bus = ⟨.ok (), [Register.Control], []⟩))
    ∧ ((set_square_wave_frequency bus f).readsIssued = [Register.Control]
      ∧ (set_square_wave_frequency bus f).writesIssued =
          (if setFreqValue bits c = c then []
            else [(Register.Control, setFreqValue bits c)])
      ∧ (setFreqValue bits c = c →
          set_square_wave_frequency bus f = ⟨.ok (), [Register.Control], []⟩))
    ∧ ((start_square_wave bus f).readsIssued = [Register.Control]
      ∧ (start_square_wave bus f).writesIssued =
          (if startValue bits c = c then []
            else [(Register.Control, startValue bits c)])
      ∧ (startValue bits c = c →
          start_square_wave bus f = ⟨.ok (), [Register.Control], []⟩)) :=
  ⟨rmw_shape (clear_register_bits_run hr),
    rmw_shape (set_register_bits_run hr),
    rmw_shape (set_square_wave_frequency_run hf hr),
    rmw_shape (start_square_wave_run hf hr)⟩

/-- Witness for C5 at the spec's example: set_square_wave_frequency at
4.096 kHz when the control byte already encodes 4.096 kHz (0b00010000)
gives one read, zero writes, success. -/
theorem C5_noop_elision_witness :
    (freq_to_bits Unit SquareWaveFreq.Hz4096 = .ok 16
      ∧ (okByteBus Unit 16).readReg Register.Control = .ok 16)
    ∧ (setFreqValue 16 16 = 16
      ∧ set_square_wave_frequency (okByteBus Unit 16) SquareWaveFreq.Hz4096
          = ⟨.ok (), [Register.Control], []⟩) :=
  ⟨⟨rfl, rfl⟩, by decide,
    (C5_noop_elision (okByteBus Unit 16) SquareWaveFreq.Hz4096 16 16 rfl
      rfl).2.2.1.2.2 (by decide)⟩

/-- C6: calling set_square_wave_frequency or start_square_wave with any
frequency outside the four supported values (in particular 32.768 kHz)
fails with UnsupportedSqwFrequency and performs zero bus transactions:
no read and no write is issued on any bus. -/
theorem C6_unsupported_zero_transactions {E : Type} (bus : BusSpec E)
    (f : SquareWaveFreq)
    (hf : f ∉ [SquareWaveFreq.Hz1, SquareWaveFreq.Hz1024,
      SquareWaveFreq.Hz4096, SquareWaveFreq.Hz8192]) :
    set_square_wave_frequency bus f
        = ⟨.error Error.UnsupportedSqwFrequency, [], []⟩
    ∧ start_square_wave bus f
        = ⟨.error Error.UnsupportedSqwFrequency, [], []⟩ := by
  cases f
  case Hz32768 => exact ⟨rfl, rfl⟩
  all_goals simp at hf

/-- Witness for C6 at 32.768 kHz on a bus stub. -/
theorem C6_unsupported_zero_transactions_witness :
    SquareWaveFreq.Hz32768 ∉ [SquareWaveFreq.Hz1, SquareWaveFreq.Hz1024,
      SquareWaveFreq.Hz4096, SquareWaveFreq.Hz8192]
    ∧ (set_square_wave_frequency (okByteBus Unit 0) SquareWaveFreq.Hz32768
        = ⟨.error Error.UnsupportedSqwFrequency, [], []⟩
      ∧ start_square_wave (okByteBus Unit 0) SquareWaveFreq.Hz32768
        = ⟨.error Error.UnsupportedSqwFrequency, [], []⟩) :=
  ⟨by decide,
    C6_unsupported_zero_transactions (okByteBus Unit 0) SquareWaveFreq.Hz32768
      (by decide)⟩

/-- C7: for every mutating square-wave operation with a supported
frequency, a failure of the read step returns the wrapped transport error
with zero writes performed, and a failure of the write step surfaces the
transport error unchanged (wrapped opaquely in Error.I2c) with no retry:
the trace is exactly one read and at most the one attempted write. -/
theorem C7_bus_failure_semantics {E : Type} (bus : BusSpec E)
    (f : SquareWaveFreq) (bits c : Nat) (e : E)
    (hf : freq_to_bits E f = .ok bits) :
    (bus.readReg Register.Control = .error e →
      enable_square_wave bus
          = ⟨.error (Error.I2c e), [Register.Control], []⟩
      ∧ disable_square_wave bus
          = ⟨.error (Error.I2c e), [Register.Control], []⟩
      ∧ set_square_wave_frequency bus f
          = ⟨.error (Error.I2c e), [Register.Control], []⟩
      ∧ start_square_wave bus f
          = ⟨.error (Error.I2c e), [Register.Control], []⟩)
    ∧ (bus.readReg Register.Control = .ok c →
      (enableValue c ≠ c →
          bus.writeReg Register.Control (enableValue c) = .error e →
        enable_square_wave bus = ⟨.error (Error.I2c e), [Register.Control],
          [(Register.Control, enableValue c)]⟩)
      ∧ (disableValue c ≠ c →
          bus.writeReg Register.Control (disableValue c) = .error e →
        disable_square_wave bus = ⟨.error (Error.I2c e), [Register.Control],
          [(Register.Control, disableValue c)]⟩)
      ∧ (setFreqValue bits c ≠ c →
          bus.writeReg Register.Control (setFreqValue bits c) = .error e →
        set_square_wave_frequency bus f = ⟨.error (Error.I2c e),
          [Register.Control], [(Register.Control, setFreqValue bits c)]⟩)
      ∧ (startValue bits c ≠ c →
          bus.writeReg Register.Control (startValue bits c) = .error e →
        start_square_wave bus f = ⟨.error (Error.I2c e),
          [Register.Control], [(Register.Control, startValue bits c)]⟩)) := by
  constructor
  · intro hr
    exact ⟨clear_register_bits_readErr hr, set_register_bits_readErr hr,
      set_square_wave_frequency_readErr hf hr,
      start_square_wave_readErr hf hr⟩
  · intro hr
    refine ⟨?_, ?_, ?_, ?_⟩
    · intro hne hw
      unfold enable_square_wave
      rw [clear_register_bits_run hr]
      exact (if_neg hne).trans (writeOutcome_of_writeErr hw)
    · intro hne hw
      unfold disable_square_wave
      rw [set_register_bits_run hr]
      exact (if_neg hne).trans (writeOutcome_of_writeErr hw)
    · intro hne hw
      rw [set_square_wave_frequency_run hf hr, if_neg hne]
      exact writeOutcome_of_writeErr hw
    · intro hne hw
      rw [start_square_wave_run hf hr, if_neg hne]
      exact writeOutcome_of_writeErr hw

/-- Witness for C7: a bus whose read fails makes enable_square_wave fail
with the wrapped error and zero writes, and a bus whose write fails makes
set_square_wave_frequency surface the wrapped error after its one write
attempt. -/
theorem C7_bus_failure_semantics_witness :
    freq_to_bits Unit SquareWaveFreq.Hz1 = .ok 0
    ∧ enable_square_wave (failBus Unit ())
        = ⟨.error (Error.I2c ()), [Register.Control], []⟩
    ∧ set_square_wave_frequency (writeFailBus Unit 28 ()) SquareWaveFreq.Hz1
        = ⟨.error (Error.I2c ()), [Register.Control],
            [(Register.Control, setFreqValue 0 28)]⟩ :=
  ⟨rfl,
    ((C7_bus_failure_semantics (failBus Unit ()) SquareWaveFreq.Hz1 0 0 ()
      rfl).1 rfl).1,
    ((C7_bus_failure_semantics (writeFailBus Unit 28 ()) SquareWaveFreq.Hz1
      0 28 () rfl).2 rfl).2.2.1 (by decide) rfl⟩

/-- C8: enable_square_wave clears only INTCN (bit 2) and
disable_square_wave sets only INTCN: every other bit, in particular the
rate-select field, is preserved by both transforms, so the configured rate
survives a disable followed by an enable; each operation is one read and a
write only when the byte changes. -/
theorem C8_enable_disable_frame {E : Type} (bus : BusSpec E) (c : Nat)
    (hc : c < 256) (hr : bus.readReg Register.Control = .ok c) :
    (∀ i : Nat, i ≠ 2 → (enableValue c).testBit i = c.testBit i)
    ∧ (enableValue c).testBit 2 = false
    ∧ (∀ i : Nat, i ≠ 2 → (disableValue c).testBit i = c.testBit i)
    ∧ (disableValue c).testBit 2 = true
    ∧ enableValue c &&& RS_MASK = c &&& RS_MASK
    ∧ disableValue c &&& RS_MASK = c &&& RS_MASK
    ∧ enableValue (disableValue c) &&& RS_MASK = c &&& RS_MASK
    ∧ (enable_square_wave bus).readsIssued = [Register.Control]
    ∧ (enable_square_wave bus).writesIssued =
        (if enableValue c = c then [] else [(Register.Control, enableValue c)])
    ∧ (disable_square_wave bus).readsIssued = [Register.Control]
    ∧ (disable_square_wave bus).writesIssued =
        (if disableValue c = c then []
          else [(Register.Control, disableValue c)]) := by
  obtain ⟨hel, hdl, he2, hd2, herate, hdrate, hedrate⟩ :=
    enable_disable_value_fin ⟨c, hc⟩
  refine ⟨?_, he2, ?_, hd2, herate, hdrate, hedrate,
    (rmw_shape (clear_register_bits_run hr)).1,
    (rmw_shape (clear_register_bits_run hr)).2.1,
    (rmw_shape (set_register_bits_run hr)).1,
    (rmw_shape (set_register_bits_run hr)).2.1⟩
  · intro i hi
    by_cases h8 : i < 8
    · exact (enable_disable_frame_fin ⟨c, hc⟩ ⟨i, h8⟩ hi).1
    · rw [byte_testBit_high hel (Nat.le_of_not_lt h8),
        byte_testBit_high hc (Nat.le_of_not_lt h8)]
  · intro i hi
    by_cases h8 : i < 8
    · exact (enable_disable_frame_fin ⟨c, hc⟩ ⟨i, h8⟩ hi).2
    · rw [byte_testBit_high hdl (Nat.le_of_not_lt h8),
        byte_testBit_high hc (Nat.le_of_not_lt h8)]

/-- Witness for C8 at the repository's enable test: control byte
0b00000100 (INTCN set, rate 1 Hz). -/
theorem C8_enable_disable_frame_witness :
    ((4 : Nat) < 256 ∧ (okByteBus Unit 4).readReg Register.Control = .ok 4)
    ∧ ((∀ i : Nat, i ≠ 2 → (enableValue 4).testBit i = (4 : Nat).testBit i)
      ∧ (enableValue 4).testBit 2 = false
      ∧ (∀ i : Nat, i ≠ 2 → (disableValue 4).testBit i = (4 : Nat).testBit i)
      ∧ (disableValue 4).testBit 2 = true
      ∧ enableValue 4 &&& RS_MASK = 4 &&& RS_MASK
      ∧ disableValue 4 &&& RS_MASK = 4 &&& RS_MASK
      ∧ enableValue (disableValue 4) &&& RS_MASK = 4 &&& RS_MASK
      ∧ (enable_square_wave (okByteBus Unit 4)).readsIssued
          = [Register.Control]
      ∧ (enable_square_wave (okByteBus Unit 4)).writesIssued =
          (if enableValue 4 = 4 then []
            else [(Register.Control, enableValue 4)])
      ∧ (disable_square_wave (okByteBus Unit 4)).readsIssued
          = [Register.Control]
      ∧ (disable_square_wave (okByteBus Unit 4)).writesIssued =
          (if disableValue 4 = 4 then []
            else [(Register.Control, disableValue 4)])) :=
  ⟨⟨by decide, rfl⟩,
    C8_enable_disable_frame (okByteBus Unit 4) 4 (by decide) rfl⟩

/-- C9: for every supported frequency the rate pattern returned by
freq_to_bits is contained in the rate-select mask - every bit outside
RS_MASK is zero - and this is what makes the splice performed by
set_square_wave_frequency (clear the masked bits, then OR in the pattern)
leave every bit outside the rate-select field of the byte read unchanged. -/
theorem C9_rate_bits_within_mask (E : Type) (f : SquareWaveFreq)
    (bits : Nat) (hf : freq_to_bits E f = .ok bits) :
    bits &&& RS_MASK = bits
    ∧ (∀ i : Nat, RS_MASK.testBit i = false → bits.testBit i = false)
    ∧ (∀ c : Nat, c < 256 → ∀ i : Nat, RS_MASK.testBit i = false →
        (setFreqValue bits c).testBit i = c.testBit i) := by
  obtain ⟨bb, rfl⟩ := freq_to_bits_pattern hf
  refine ⟨(rate_bits_in_mask_fin bb).1, ?_, ?_⟩
  · exact testBit_false_of_fin (by have := bb.isLt; omega)
      (rate_bits_in_mask_fin bb).2
  · intro c hc
    exact agree_outside_of_fin (setFreqValue_lt_fin bb ⟨c, hc⟩) hc
      (setFreqValue_frame_fin bb ⟨c, hc⟩)

/-- Witness for C9 at 8.192 kHz (pattern 0b00011000). -/
theorem C9_rate_bits_within_mask_witness :
    freq_to_bits Unit SquareWaveFreq.Hz8192 = .ok 24
    ∧ ((24 : Nat) &&& RS_MASK = 24
      ∧ (∀ i : Nat, RS_MASK.testBit i = false → (24 : Nat).testBit i = false)
      ∧ (∀ c : Nat, c < 256 → ∀ i : Nat, RS_MASK.testBit i = false →
          (setFreqValue 24 c).testBit i = c.testBit i)) :=
  ⟨rfl, C9_rate_bits_within_mask Unit SquareWaveFreq.Hz8192 24 rfl⟩

/-- C10: the control-byte transforms of set_square_wave_frequency and
start_square_wave are idempotent for every supported frequency, so an
immediately repeated call that reads back the previously written byte
computes the same value again and, by no-op elision, succeeds with one
read and zero writes. -/
theorem C10_transform_idempotent (E : Type) (f : SquareWaveFreq)
    (bits c : Nat) (hf : freq_to_bits E f = .ok bits) (hc : c < 256) :
    setFreqValue bits (setFreqValue bits c) = setFreqValue bits c
    ∧ startValue bits (startValue bits c) = startValue bits c
    ∧ (∀ bus : BusSpec E,
        bus.readReg Register.Control = .ok (setFreqValue bits c) →
        set_square_wave_frequency bus f = ⟨.ok (), [Register.Control], []⟩)
    ∧ (∀ bus : BusSpec E,
        bus.readReg Register.Control = .ok (startValue bits c) →
        start_square_wave bus f = ⟨.ok (), [Register.Control], []⟩) := by
  obtain ⟨bb, rfl⟩ := freq_to_bits_pattern hf
  obtain ⟨h1, h2⟩ := sqw_idem_fin bb ⟨c, hc⟩
  refine ⟨h1, h2, ?_, ?_⟩
  · intro bus hr
    rw [set_square_wave_frequency_run hf hr, if_pos h1]
  · intro bus hr
    rw [start_square_wave_run hf hr, if_pos h2]

/-- Witness for C10 at 1.024 kHz starting from control byte 0b11000100. -/
theorem C10_transform_idempotent_witness :
    (freq_to_bits Unit SquareWaveFreq.Hz1024 = .ok 8 ∧ (196 : Nat) < 256)
    ∧ (setFreqValue 8 (setFreqValue 8 196) = setFreqValue 8 196
      ∧ set_square_wave_frequency (okByteBus Unit (setFreqValue 8 196))
          SquareWaveFreq.Hz1024 = ⟨.ok (), [Register.Control], []⟩) :=
  ⟨⟨rfl, by decide⟩,
    (C10_transform_idempotent Unit SquareWaveFreq.Hz1024 8 196 rfl
      (by decide)).1,
    (C10_transform_idempotent Unit SquareWaveFreq.Hz1024 8 196 rfl
      (by decide)).2.2.1 (okByteBus Unit (setFreqValue 8 196)) rfl⟩

end Ds3231Spec
